import Mathlib

/-!
Verification development for the AutoCogni agent core
(`app/core/graph.py`, `app/computer_agent/playwright_tools.py`,
`app/services/agent_service.py`).

The Python source is shallowly embedded: pure logic becomes Lean
functions, the mutable LangGraph state becomes explicit records, and the
external automation backends (Playwright page actions, OS input) are
abstracted by an environment function assigning each backend call a
success or an exception message. Exceptions are modelled with
`Except`/`Option`.
-/

namespace AutoCogni

/-! ## JSON values and `json.loads` -/

/-- JSON values as produced by Python's `json.loads`. Numeric literals
are kept verbatim (`num raw`) since no component of the agent core
inspects numbers arithmetically; objects keep their fields in source
order and key lookups take the last binding, matching `dict` build
semantics. -/
inductive Json where
  | null
  | bool (b : Bool)
  | num (raw : String)
  | str (s : String)
  | arr (elems : List Json)
  | obj (fields : List (String × Json))
deriving Repr

/-- JSON whitespace (also what `str.strip()` treats as space for our
ASCII inputs, plus form/vertical feed added separately where needed). -/
def isWsChar (c : Char) : Bool :=
  c = ' ' || c = '\t' || c = '\n' || c = '\r'

def isDigitChar (c : Char) : Bool :=
  '0' ≤ c && c ≤ '9'

/-- Drop leading JSON whitespace. -/
def skipWs : List Char → List Char
  | [] => []
  | c :: cs => if isWsChar c then skipWs cs else c :: cs

/-- Greedily split off a run of characters satisfying `p`. -/
def spanP (p : Char → Bool) : List Char → List Char × List Char
  | [] => ([], [])
  | c :: cs =>
    if p c then
      let (run, rest) := spanP p cs
      (c :: run, rest)
    else ([], c :: cs)

/-- Match a literal at the head of the input, returning the remainder. -/
def dropLit : List Char → List Char → Option (List Char)
  | [], s => some s
  | _ :: _, [] => none
  | p :: ps, c :: cs => if p = c then dropLit ps cs else none

/-- Value of one hexadecimal digit (code-point arithmetic: `0`-`9` are
48..57, `a`-`f` are 97..102, `A`-`F` are 65..70). -/
def hexVal (c : Char) : Option Nat :=
  let n := c.toNat
  if 48 ≤ n && n ≤ 57 then some (n - 48)
  else if 97 ≤ n && n ≤ 102 then some (n - 87)
  else if 65 ≤ n && n ≤ 70 then some (n - 55)
  else none

/-- Single-character JSON string escapes. -/
def escChar (c : Char) : Option Char :=
  if c = '"' then some '"'
  else if c = '\\' then some '\\'
  else if c = '/' then some '/'
  else if c = 'b' then some (Char.ofNat 8)
  else if c = 'f' then some (Char.ofNat 12)
  else if c = 'n' then some '\n'
  else if c = 'r' then some '\r'
  else if c = 't' then some '\t'
  else none

/-- Parse the body of a JSON string after the opening quote; returns the
decoded content and the input after the closing quote. -/
def parseStringBody : List Char → Option (List Char × List Char)
  | [] => none
  | c :: cs =>
    if c = '"' then some ([], cs)
    else if c = '\\' then
      match cs with
      | [] => none
      | e :: cs2 =>
        if e = 'u' then
          match cs2 with
          | a :: b :: c2 :: d :: cs3 =>
            match hexVal a, hexVal b, hexVal c2, hexVal d with
            | some ha, some hb, some hc, some hd =>
              match parseStringBody cs3 with
              | some (content, rest) =>
                some (Char.ofNat (((ha * 16 + hb) * 16 + hc) * 16 + hd) :: content, rest)
              | none => none
            | _, _, _, _ => none
          | _ => none
        else
          match escChar e with
          | some r =>
            match parseStringBody cs2 with
            | some (content, rest) => some (r :: content, rest)
            | none => none
          | none => none
    else if c.toNat < 32 then none
    else
      match parseStringBody cs with
      | some (content, rest) => some (c :: content, rest)
      | none => none

/-- Parse a JSON number literal, returning the raw literal characters and
the remainder. JSON forbids leading zeros and requires digits around the
decimal point and exponent. -/
def parseNumberRaw (s : List Char) : Option (List Char × List Char) :=
  let (neg, s1) :=
    match s with
    | '-' :: rest => (['-'], rest)
    | _ => (([] : List Char), s)
  let (intPart, s2) := spanP isDigitChar s1
  match intPart with
  | [] => none
  | d :: ds =>
    if d = '0' && ds ≠ [] then none
    else
      let (fracPart, s3) :=
        match s2 with
        | '.' :: rest =>
          let (fd, r) := spanP isDigitChar rest
          if fd = [] then (none, s2) else (some ('.' :: fd), r)
        | _ => (none, s2)
      match fracPart with
      | none =>
        match s2 with
        | '.' :: _ => none
        | _ =>
          let (expPart, s4) :=
            match s2 with
            | e :: rest =>
              if e = 'e' || e = 'E' then
                let (sgn, r1) :=
                  match rest with
                  | '+' :: r => (['+'], r)
                  | '-' :: r => (['-'], r)
                  | _ => (([] : List Char), rest)
                let (ed, r2) := spanP isDigitChar r1
                if ed = [] then (none, s2) else (some (e :: (sgn ++ ed)), r2)
              else (none, s2)
            | _ => (none, s2)
          match expPart with
          | none => some (neg ++ intPart, s2)
          | some ep => some (neg ++ intPart ++ ep, s4)
      | some fp =>
        let (expPart, s4) :=
          match s3 with
          | e :: rest =>
            if e = 'e' || e = 'E' then
              let (sgn, r1) :=
                match rest with
                | '+' :: r => (['+'], r)
                | '-' :: r => (['-'], r)
                | _ => (([] : List Char), rest)
              let (ed, r2) := spanP isDigitChar r1
              if ed = [] then (none, s3) else (some (e :: (sgn ++ ed)), r2)
            else (none, s3)
          | _ => (none, s3)
        match expPart with
        | none => some (neg ++ intPart ++ fp, s3)
        | some ep => some (neg ++ intPart ++ fp ++ ep, s4)

mutual

/-- Recursive-descent JSON value parser (fuel-indexed), mirroring
`json.loads` including its acceptance of `NaN`/`Infinity`. -/
def parseValue : Nat → List Char → Option (Json × List Char)
  | 0, _ => none
  | fuel + 1, s =>
    match skipWs s with
    | [] => none
    | c :: cs =>
      if c = '"' then
        match parseStringBody cs with
        | some (content, rest) => some (Json.str (String.mk content), rest)
        | none => none
      else if c = '[' then
        match skipWs cs with
        | ']' :: rest => some (Json.arr [], rest)
        | _ =>
          match parseElems fuel cs with
          | some (elems, rest) => some (Json.arr elems, rest)
          | none => none
      else if c = Char.ofNat 123 then
        match skipWs cs with
        | c2 :: rest =>
          if c2 = Char.ofNat 125 then some (Json.obj [], rest)
          else
            match parseMembers fuel cs with
            | some (fields, rest2) => some (Json.obj fields, rest2)
            | none => none
        | [] => none
      else if c = 't' then
        match dropLit ['r', 'u', 'e'] cs with
        | some rest => some (Json.bool true, rest)
        | none => none
      else if c = 'f' then
        match dropLit ['a', 'l', 's', 'e'] cs with
        | some rest => some (Json.bool false, rest)
        | none => none
      else if c = 'n' then
        match dropLit ['u', 'l', 'l'] cs with
        | some rest => some (Json.null, rest)
        | none => none
      else if c = 'N' then
        match dropLit ['a', 'N'] cs with
        | some rest => some (Json.num "NaN", rest)
        | none => none
      else if c = 'I' then
        match dropLit ['n', 'f', 'i', 'n', 'i', 't', 'y'] cs with
        | some rest => some (Json.num "Infinity", rest)
        | none => none
      else if c = '-' && (match cs with | 'I' :: _ => true | _ => false) then
        match dropLit ['I', 'n', 'f', 'i', 'n', 'i', 't', 'y'] cs with
        | some rest => some (Json.num "-Infinity", rest)
        | none => none
      else
        match parseNumberRaw (c :: cs) with
        | some (raw, rest) => some (Json.num (String.mk raw), rest)
        | none => none

/-- Parse the elements of a JSON array after the opening bracket. -/
def parseElems : Nat → List Char → Option (List Json × List Char)
  | 0, _ => none
  | fuel + 1, s =>
    match parseValue fuel s with
    | none => none
    | some (v, rest) =>
      match skipWs rest with
      | ',' :: rest2 =>
        match parseElems fuel rest2 with
        | some (vs, rest3) => some (v :: vs, rest3)
        | none => none
      | ']' :: rest2 => some ([v], rest2)
      | _ => none

/-- Parse the members of a JSON object after the opening brace. -/
def parseMembers : Nat → List Char → Option (List (String × Json) × List Char)
  | 0, _ => none
  | fuel + 1, s =>
    match skipWs s with
    | '"' :: cs =>
      match parseStringBody cs with
      | none => none
      | some (key, rest) =>
        match skipWs rest with
        | ':' :: rest2 =>
          match parseValue fuel rest2 with
          | none => none
          | some (v, rest3) =>
            match skipWs rest3 with
            | ',' :: rest4 =>
              match parseMembers fuel rest4 with
              | some (fields, rest5) => some ((String.mk key, v) :: fields, rest5)
              | none => none
            | c :: rest4 =>
              if c = Char.ofNat 125 then some ([(String.mk key, v)], rest4)
              else none
            | [] => none
        | _ => none
    | _ => none

end

/-- `json.loads`: decode a whole string as one JSON value (trailing
whitespace only). `none` models a raised `json.JSONDecodeError`. -/
def jsonLoads (s : String) : Option Json :=
  match parseValue (s.length + 2) s.data with
  | some (v, rest) => if skipWs rest = [] then some v else none
  | none => none

/-- Key lookup in a decoded object: the last binding wins, matching the
`dict` that `json.loads` actually builds from duplicate keys. -/
def objLookup (fields : List (String × Json)) (key : String) : Option Json :=
  match fields with
  | [] => none
  | (k, v) :: rest =>
    match objLookup rest key with
    | some r => some r
    | none => if k = key then some v else none

/-! ## Plan parsing and validation (`plan_validation_node`, graph.py) -/

/-- Split a character list at the first occurrence of `pat`, returning
the part before the occurrence and the part after it. -/
def splitFirst (pat : List Char) : List Char → Option (List Char × List Char)
  | [] =>
    match dropLit pat [] with
    | some r => some ([], r)
    | none => none
  | c :: cs =>
    match dropLit pat (c :: cs) with
    | some r => some ([], r)
    | none =>
      match splitFirst pat cs with
      | some (pre, post) => some (c :: pre, post)
      | none => none

/-- Split a character list at the last occurrence of `pat`. -/
def splitLast (pat : List Char) : List Char → Option (List Char × List Char)
  | [] =>
    match dropLit pat [] with
    | some r => some ([], r)
    | none => none
  | c :: cs =>
    match splitLast pat cs with
    | some (pre, post) => some (c :: pre, post)
    | none =>
      match dropLit pat (c :: cs) with
      | some r => some ([], r)
      | none => none

/-- Whether `pat` occurs as a contiguous sublist of `s`. -/
def occursLit (pat s : List Char) : Bool :=
  (splitFirst pat s).isSome

/-- The code-fence stripping step of `plan_validation_node`:
`re.search(r"` ```json\n(.*)\n``` `", raw, re.DOTALL)` and
`json_match.group(1) if json_match else raw`. The leftmost match starts
at the first occurrence of the opening fence and, because `(.*)` is
greedy under DOTALL, the captured group runs to the last occurrence of
the closing fence in the remainder. -/
def extractPayload (raw : String) : String :=
  (((splitFirst "```json\n".data raw.data).bind fun pr =>
      (splitLast "\n```".data pr.2).map fun gr => String.mk gr.1)).getD raw

/-- `schemas.ActionDetail` restricted to the two fields the graph ever
sets; the remaining optional fields default to `None` and are never
populated by `plan_validation_node`. -/
structure ActionDetail where
  tool : String
  parameters : List (String × Json)
deriving Repr

def errActionFormat : String :=
  "Invalid action format in plan. Expected \x27tool\x27 and \x27parameters\x27 keys."

def errKeys : String :=
  "Response is not a JSON object with \x27intermediate_goal\x27 and \x27plan\x27 keys."

def errPlanList : String :=
  "The \x27plan\x27 key must contain a list of actions."

/-- Fixed tag standing for the environment-dependent text of a
`json.JSONDecodeError`. -/
def jsonDecodeErr : String := "JSONDecodeError"

/-- Fixed tag standing for a `pydantic.ValidationError` (a `ValueError`
subclass, so caught by the same handler) raised by
`ActionDetail(tool=..., parameters=...)` when `tool` is not a string or
`parameters` is not a dict. -/
def pydanticErr : String := "ValidationError: ActionDetail"

/-- One iteration of the validation loop in `plan_validation_node`:
require a dict with `tool` and `parameters` keys, then build the
pydantic `ActionDetail` (which itself validates the field types). -/
def mkActionDetail (a : Json) : Except String ActionDetail :=
  match a with
  | Json.obj fields =>
    match objLookup fields "tool", objLookup fields "parameters" with
    | some toolJ, some paramsJ =>
      match toolJ, paramsJ with
      | Json.str t, Json.obj ps => Except.ok ⟨t, ps⟩
      | _, _ => Except.error pydanticErr
    | _, _ => Except.error errActionFormat
  | _ => Except.error errActionFormat

/-- The `for action in plan_to_validate` loop: build `validated_actions`
in order, raising (first error wins) on a malformed element. -/
def convertActions : List Json → Except String (List ActionDetail)
  | [] => Except.ok []
  | e :: rest =>
    match mkActionDetail e with
    | Except.ok a =>
      match convertActions rest with
      | Except.ok as => Except.ok (a :: as)
      | Except.error m => Except.error m
    | Except.error m => Except.error m

/-- Body of the `try` block of `plan_validation_node` after fence
stripping: decode, require the two keys, require `plan` to be a list,
and convert every element, raising on the first malformed one. -/
def planValidationCore (clean : String) : Except String (List ActionDetail × Json) :=
  match jsonLoads clean with
  | none => Except.error jsonDecodeErr
  | some v =>
    match v with
    | Json.obj fields =>
      match objLookup fields "intermediate_goal", objLookup fields "plan" with
      | some ig, some planJ =>
        match planJ with
        | Json.arr elems =>
          match convertActions elems with
          | Except.ok acts => Except.ok (acts, ig)
          | Except.error e => Except.error e
        | _ => Except.error errPlanList
      | _, _ => Except.error errKeys
    | _ => Except.error errKeys

/-- The partial state update returned by `plan_validation_node`. -/
structure PVResult where
  concrete_plan : List ActionDetail
  intermediate_goal : Option Json
  error_message : Option String
deriving Repr

/-- `plan_validation_node` (graph.py): on any exception from the body,
return an empty plan together with an error message embedding the raw
model output. -/
def plan_validation_node (raw : String) : PVResult :=
  match planValidationCore (extractPayload raw) with
  | Except.ok (acts, ig) => ⟨acts, some ig, none⟩
  | Except.error e =>
    ⟨[], none,
      some ("Failed to parse or validate plan object: " ++ e ++ ". Raw response was: " ++ raw)⟩

/-! ## Conditional routing (`should_continue`, graph.py) -/

/-- Python truthiness of an optional string, as tested by
`if state.get("error_message"):`. -/
def pythonTruthy (o : Option String) : Bool :=
  match o with
  | none => false
  | some s => !(s == "")

/-- The three routes the conditional edge can choose between. -/
inductive Route where
  | reasoning_node
  | execution_node
  | END
deriving DecidableEq, Repr

/-- `should_continue` (graph.py): an error loops straight back to the
reasoning node; a plan containing `finish_task` ends the graph without
ever reaching the execution node; otherwise execute. -/
def should_continue (error_message : Option String) (concrete_plan : List ActionDetail) :
    Route :=
  if pythonTruthy error_message then Route.reasoning_node
  else if concrete_plan.any (fun a => a.tool == "finish_task") then Route.END
  else Route.execution_node

/-! ## Automation session (`BrowserController`, playwright_tools.py)

The controller's three handles (`playwright`, `browser`, `page`) are
modelled as presence flags. -/

structure BrowserController where
  playwright : Bool
  browser : Bool
  page : Bool
deriving DecidableEq, Repr

/-- A freshly constructed controller: all handles are `None`. -/
def BrowserController.unstarted : BrowserController := ⟨false, false, false⟩

/-- `start()`: warning-only no-op if a page already exists, otherwise
acquire playwright, browser and page. (No caller in the repository
actually invokes this method — both `graph.py` and `cli.py` spell it
`launch`.) -/
def BrowserController.start (bc : BrowserController) : BrowserController :=
  if bc.page then bc else ⟨true, true, true⟩

/-- `stop()`: close the browser if present, stop playwright if present,
then set all three handles to `None`. The backend teardown calls
(`browser.close()`, `playwright.stop()`) are modelled as non-throwing. -/
def BrowserController.stop (_bc : BrowserController) : BrowserController :=
  ⟨false, false, false⟩

/-- `_ensure_browser_is_running`: raises unless both `page` and
`browser` are set. -/
def BrowserController.isRunning (bc : BrowserController) : Bool :=
  bc.page && bc.browser

/-! ## Execution dispatcher (`execution_node`, graph.py) -/

/-- One invocation of a concrete automation backend. Arguments are the
JSON values taken from the action's parameters. -/
inductive BackendCall where
  | pageGoto (url : Json)
  | pageClick (selector : Json)
  | pageFill (selector : Json) (text : Json)
  | osClick (x y : Json)
  | osType (text : Json)
  | osScroll (direction : Json)
deriving Repr

/-- The external world: each backend call either succeeds (`none`) or
raises an exception with the given message (`some msg`). -/
def Env : Type := BackendCall → Option String

def hasKey (ps : List (String × Json)) (k : String) : Bool :=
  (objLookup ps k).isSome

def getKey (ps : List (String × Json)) (k : String) : Json :=
  (objLookup ps k).getD Json.null

/-- Whether every parameter key is among the allowed keyword names, as
required for a `f(**params)` call to bind without a `TypeError`. -/
def keysAllowed (ps : List (String × Json)) (allowed : List String) : Bool :=
  ps.all (fun kv => allowed.contains kv.1)

/-- Fixed tag for the `TypeError` raised when `**params` does not match
the callee's signature (unexpected or missing keyword arguments). -/
def kwargsTypeErr (fname : String) : String :=
  "TypeError: invalid arguments for " ++ fname

def runtimeNotStarted : String :=
  "Browser is not started. Please call .start() before using browser actions."

/-- `await browser_controller.launch()`: `BrowserController` defines no
method `launch` (playwright_tools.py names it `start`), so the attribute
lookup raises before anything else in the `navigate` branch runs. -/
def attrErrLaunch : String :=
  "\x27BrowserController\x27 object has no attribute \x27launch\x27"

/-- Python display form of a JSON value inside an f-string. Containers
are abbreviated: only their presence, never their text, matters to any
theorem below. -/
def pyStr : Json → String
  | Json.null => "None"
  | Json.bool true => "True"
  | Json.bool false => "False"
  | Json.num raw => raw
  | Json.str s => s
  | Json.arr _ => "[...]"
  | Json.obj _ => "\x7b...\x7d"

/-- Outcome of dispatching a single action inside the `try` block. -/
inductive StepOutcome where
  | success (calls : List BackendCall)
  | failure (reason : String) (calls : List BackendCall)
  | finishAttempt (result : Json)
deriving Repr

/-- The tool dispatch for one action (`execution_node`'s `try` body),
recording which backend calls were attempted. The browser state is
read, never written: no branch of the dispatch mutates the session. -/
def execStep (env : Env) (bc : BrowserController) (a : ActionDetail) : StepOutcome :=
  let ps := a.parameters
  if a.tool == "navigate" then
    StepOutcome.failure attrErrLaunch []
  else if a.tool == "type_text" then
    if hasKey ps "selector" then
      if keysAllowed ps ["selector", "text", "timeout"] && hasKey ps "text" then
        if bc.isRunning then
          match env (BackendCall.pageFill (getKey ps "selector") (getKey ps "text")) with
          | none =>
            StepOutcome.success [BackendCall.pageFill (getKey ps "selector") (getKey ps "text")]
          | some e =>
            StepOutcome.failure e [BackendCall.pageFill (getKey ps "selector") (getKey ps "text")]
        else StepOutcome.failure runtimeNotStarted []
      else StepOutcome.failure (kwargsTypeErr "type_text") []
    else
      if keysAllowed ps ["text"] && hasKey ps "text" then
        match env (BackendCall.osType (getKey ps "text")) with
        | none => StepOutcome.success [BackendCall.osType (getKey ps "text")]
        | some e => StepOutcome.failure e [BackendCall.osType (getKey ps "text")]
      else StepOutcome.failure (kwargsTypeErr "type_text") []
  else if a.tool == "click" then
    if hasKey ps "selector" then
      if keysAllowed ps ["selector", "timeout"] then
        if bc.isRunning then
          match env (BackendCall.pageClick (getKey ps "selector")) with
          | none => StepOutcome.success [BackendCall.pageClick (getKey ps "selector")]
          | some e => StepOutcome.failure e [BackendCall.pageClick (getKey ps "selector")]
        else StepOutcome.failure runtimeNotStarted []
      else StepOutcome.failure (kwargsTypeErr "click") []
    else
      if keysAllowed ps ["x", "y"] && hasKey ps "x" && hasKey ps "y" then
        match env (BackendCall.osClick (getKey ps "x") (getKey ps "y")) with
        | none => StepOutcome.success [BackendCall.osClick (getKey ps "x") (getKey ps "y")]
        | some e => StepOutcome.failure e [BackendCall.osClick (getKey ps "x") (getKey ps "y")]
      else StepOutcome.failure (kwargsTypeErr "click") []
  else if a.tool == "scroll" then
    if keysAllowed ps ["direction"] && hasKey ps "direction" then
      match env (BackendCall.osScroll (getKey ps "direction")) with
      | none => StepOutcome.success [BackendCall.osScroll (getKey ps "direction")]
      | some e => StepOutcome.failure e [BackendCall.osScroll (getKey ps "direction")]
    else StepOutcome.failure (kwargsTypeErr "scroll") []
  else if a.tool == "finish_task" then
    StepOutcome.finishAttempt
      ((objLookup ps "result").getD (Json.str "Task completed successfully."))
  else
    StepOutcome.failure ("Unknown tool: \x27" ++ a.tool ++ "\x27") []

/-- The backend calls attempted when dispatching `a` (empty for the
`finish_task` branch, which touches no backend). -/
def stepCalls (env : Env) (bc : BrowserController) (a : ActionDetail) : List BackendCall :=
  match execStep env bc a with
  | StepOutcome.success calls => calls
  | StepOutcome.failure _ calls => calls
  | StepOutcome.finishAttempt _ => []

/-- The partial state update `execution_node` returns: exactly one of
`execution_result` (continuing), `error_message` (failed) or
`final_response` (finished). -/
inductive ExecOutcome where
  | continuing (execution_result : String)
  | failed (error_message : String)
  | finished (output : String)
deriving Repr

/-- Result of a dispatcher run: the returned update, the browser
session afterwards, the lines appended to `state['history']` (in
order), and the backend calls attempted (in order). -/
structure ExecResult where
  outcome : ExecOutcome
  bc : BrowserController
  hist : List String
  calls : List BackendCall
deriving Repr

/-- The error text `f"Error executing action '{tool}' with params
{params}. Reason: {e}"`; the params fragment (a Python dict repr) is
omitted from the modelled text. -/
def execErrMsg (tool reason : String) : String :=
  "Error executing action \x27" ++ tool ++ "\x27. Reason: " ++ reason

/-- `AgentResponse(status="completed", output=final_output)`:
`schemas.AgentResponse` declares required fields `thought` and
`actions`, and the call supplies neither, so pydantic raises a
`ValidationError` (a `ValueError`, caught by the surrounding handler). -/
def mkAgentResponseStatusOutput : Except String Unit :=
  Except.error
    "ValidationError: AgentResponse fields \x27thought\x27 and \x27actions\x27 are required"

/-- The `for i, action in enumerate(plan)` loop of `execution_node`,
with `results` the list of per-action success strings so far. -/
def execGo (env : Env) (bc : BrowserController) (igShown : String) :
    List ActionDetail → List String → ExecResult
  | [], results =>
    ⟨ExecOutcome.continuing (String.intercalate "\n" results), bc,
      ["Execution successful for intermediate goal \x27" ++ igShown ++ "\x27."], []⟩
  | a :: rest, results =>
    match execStep env bc a with
    | StepOutcome.success calls =>
      let r := execGo env bc igShown rest
        (results ++ ["Action \x27" ++ a.tool ++ "\x27 executed successfully."])
      ⟨r.outcome, r.bc, r.hist, calls ++ r.calls⟩
    | StepOutcome.failure reason calls =>
      let msg := execErrMsg a.tool reason
      ⟨ExecOutcome.failed msg, bc, ["ERROR: " ++ msg], calls⟩
    | StepOutcome.finishAttempt resultJ =>
      match mkAgentResponseStatusOutput with
      | Except.ok _ =>
        ⟨ExecOutcome.finished (pyStr resultJ), bc,
          ["Task finished with result: " ++ pyStr resultJ], []⟩
      | Except.error e =>
        let msg := execErrMsg a.tool e
        ⟨ExecOutcome.failed msg, bc,
          ["Task finished with result: " ++ pyStr resultJ, "ERROR: " ++ msg], []⟩

/-- f-string display of `state.get('intermediate_goal', 'N/A')`. The
`'N/A'` default never fires in the compiled graph (every upstream node
stores the key), so the value is a JSON value or `None`. -/
def igRender : Option Json → String
  | none => "None"
  | some j => pyStr j

def noPlanMsg : String := "Execution failed: No valid plan was provided."

/-- `execution_node` (graph.py): append the intermediate-goal banner to
history, fail fast on an empty plan, otherwise run the dispatch loop. -/
def execution_node (env : Env) (bc : BrowserController) (ig : Option Json)
    (plan : List ActionDetail) : ExecResult :=
  let headLine := "Executing plan for intermediate goal: " ++ igRender ig
  match plan with
  | [] =>
    ⟨ExecOutcome.failed noPlanMsg, bc, [headLine, "ERROR: " ++ noPlanMsg], []⟩
  | _ =>
    let r := execGo env bc (igRender ig) plan []
    ⟨r.outcome, r.bc, headLine :: r.hist, r.calls⟩

/-! ## Cycle state carried between nodes (`AgentState`, graph.py) -/

/-- The slice of `AgentState` relevant to error propagation across
cycles. -/
structure LoopState where
  vision_analysis : String
  error_message : Option String
  execution_result : Option String
  intermediate_goal : Option Json
deriving Repr

/-- The partial update returned by `vision_node` (graph.py): store the
new analysis and unconditionally reset `error_message`,
`execution_result` and `intermediate_goal` for the new cycle. -/
def vision_node_update (analysis : String) (st : LoopState) : LoopState :=
  { st with
    vision_analysis := analysis
    error_message := none
    execution_result := none
    intermediate_goal := none }

/-- `reasoning_node` (graph.py) reads `previous_error =
state.get("error_message")` and passes it to the reasoning model. -/
def reasoning_previous_error (st : LoopState) : Option String :=
  st.error_message

/-! ## Action-string parsing (`AgentService.parse_action_string`,
services/agent_service.py)

The four regular expressions are simple enough that their Python
search semantics (leftmost start position, greedy groups with
backtracking, `.` not matching a newline, `re.IGNORECASE` on ASCII)
are modelled directly. -/

/-- Python regex `\s` on the ASCII range. -/
def isRegexWs (c : Char) : Bool :=
  c = ' ' || c = '\t' || c = '\n' || c = '\r' || c = Char.ofNat 11 || c = Char.ofNat 12

/-- `str.strip()` whitespace on the ASCII range. -/
def pyIsSpace (c : Char) : Bool :=
  c = ' ' || c = '\t' || c = '\n' || c = '\r' || c = Char.ofNat 11 || c = Char.ofNat 12

/-- Drop characters satisfying `p` from both ends. -/
def dropEnds (p : Char → Bool) (s : List Char) : List Char :=
  ((s.dropWhile p).reverse.dropWhile p).reverse

/-- `reason.strip().strip('"')`. -/
def pyStripQuotes (s : List Char) : List Char :=
  dropEnds (fun c => c = '"') (dropEnds pyIsSpace s)

def natOfDigits (ds : List Char) : Nat :=
  ds.foldl (fun n c => n * 10 + (c.toNat - '0'.toNat)) 0

/-- Case-insensitive literal match at the head of the input; the
pattern is given in upper case. -/
def ciDropLit : List Char → List Char → Option (List Char)
  | [], s => some s
  | _ :: _, [] => none
  | p :: ps, c :: cs => if p = Char.toUpper c then ciDropLit ps cs else none

/-- `re.search` for a pattern `LIT...tail`: try every start position
left to right; at each occurrence of the literal run the (deterministic)
tail matcher, falling through to later positions on failure. -/
def ciScan {α : Type} (litU : List Char) (tailFn : List Char → Option α) :
    List Char → Option α
  | [] => none
  | c :: cs =>
    match ciDropLit litU (c :: cs) with
    | some r =>
      match tailFn r with
      | some a => some a
      | none => ciScan litU tailFn cs
    | none => ciScan litU tailFn cs

/-- Tail `(.*)\)` with `.` not matching newline: the group runs
greedily to the last `)` of the current line. -/
def lastParenGroup (r : List Char) : Option (List Char) :=
  match splitLast [')'] (r.takeWhile (fun c => c ≠ '\n')) with
  | some (pre, _) => some pre
  | none => none

/-- Tail `(.*),(.*)\)` with greedy groups: the closing `)` is the last
one on the line and the comma is the last one before it. -/
def twoGroupsTail (r : List Char) : Option (List Char × List Char) :=
  match splitLast [')'] (r.takeWhile (fun c => c ≠ '\n')) with
  | none => none
  | some (preK, _) =>
    match splitLast [','] preK with
    | none => none
    | some (g1, g2) => some (g1, g2)

/-- Tail `\s*(\d+)\s*,\s*(\d+)\s*,(.*)\)` of the CLICK pattern;
`\s` may cross newlines but the final group may not. -/
def clickTail (r : List Char) : Option (Nat × Nat × List Char) :=
  let r1 := (spanP isRegexWs r).2
  let (d1, r2) := spanP isDigitChar r1
  if d1 = [] then none
  else
    match (spanP isRegexWs r2).2 with
    | ',' :: r4 =>
      let r5 := (spanP isRegexWs r4).2
      let (d2, r6) := spanP isDigitChar r5
      if d2 = [] then none
      else
        match (spanP isRegexWs r6).2 with
        | ',' :: r8 =>
          match lastParenGroup r8 with
          | some g => some (natOfDigits d1, natOfDigits d2, g)
          | none => none
        | _ => none
    | _ => none

/-- The 4-tuple `(action_type, coordinates, text, reason)` returned by
`parse_action_string`. -/
structure ParsedAction where
  action_type : String
  coordinates : Option (Nat × Nat)
  text : Option String
  reason : String
deriving DecidableEq, Repr

/-- The fallback value returned when no command pattern matches. -/
def parseErrorResult (s : String) : ParsedAction :=
  ⟨"error", none, none, "Could not parse model output: " ++ s⟩

/-- `AgentService.parse_action_string`: dispatch on the upper-cased
text before the first `(`, then search with the per-command pattern;
every non-matching input falls through to the error 4-tuple. The
`try/except` wrapper in the source has no live throwing operation
(`int()` is applied only to `\d+` matches), so it is not modelled. -/
def parse_action_string (s : String) : ParsedAction :=
  let cs := s.data
  let command := (cs.takeWhile (fun c => c ≠ '(')).map Char.toUpper
  if command = "CLICK".data then
    match ciScan "CLICK(".data clickTail cs with
    | some (x, y, g) => ⟨"click", some (x, y), none, String.mk (pyStripQuotes g)⟩
    | none => parseErrorResult s
  else if command = "TYPE".data then
    match ciScan "TYPE(".data twoGroupsTail cs with
    | some (g1, g2) =>
      ⟨"type", none, some (String.mk (pyStripQuotes g1)), String.mk (pyStripQuotes g2)⟩
    | none => parseErrorResult s
  else if command = "SCROLL".data then
    match ciScan "SCROLL(".data twoGroupsTail cs with
    | some (g1, g2) =>
      ⟨"scroll", none, some (String.mk (pyStripQuotes g1)), String.mk (pyStripQuotes g2)⟩
    | none => parseErrorResult s
  else if command = "FINISH".data then
    match ciScan "FINISH(".data lastParenGroup cs with
    | some g => ⟨"finish", none, none, String.mk (pyStripQuotes g)⟩
    | none => parseErrorResult s
  else parseErrorResult s

/-! ## Derived predicates and concrete fixtures -/

/-- Whether a plan element survives the validation loop. -/
def wellFormedAction (e : Json) : Bool :=
  match mkActionDetail e with
  | Except.ok _ => true
  | Except.error _ => false

/-- The `ActionDetail` a well-formed element converts to (dummy value on
malformed elements, used only under a `wellFormedAction` hypothesis). -/
def adForce (e : Json) : ActionDetail :=
  match mkActionDetail e with
  | Except.ok a => a
  | Except.error _ => ⟨"", []⟩

/-- An environment in which every backend call succeeds. -/
def envOk : Env := fun _ => none

/-- A running automation session (all three handles acquired). -/
def bcRunning : BrowserController := ⟨true, true, true⟩

def scrollAD : ActionDetail := ⟨"scroll", [("direction", Json.str "down")]⟩

def clickSelAD : ActionDetail := ⟨"click", [("selector", Json.str "#btn")]⟩

def navigateAD : ActionDetail := ⟨"navigate", [("url", Json.str "https://x")]⟩

def finishAD : ActionDetail := ⟨"finish_task", [("result", Json.str "done")]⟩

def bogusAD : ActionDetail := ⟨"bogus_tool", []⟩

def unknownAD : ActionDetail := ⟨"does_not_exist", []⟩

/-- A minimal well-formed plan payload (empty action list). -/
def wfPayload : String := "\x7b\"intermediate_goal\": \"g\", \"plan\": []\x7d"

/-- Raw model output containing two fenced blocks; the first block's
contents are exactly `wfPayload`. -/
def twoBlockRaw : String :=
  "```json\n" ++ wfPayload ++ "\n```\nnoise\n```json\n\x7b\"k\": 1\x7d\n```"

/-- A well-formed plan element, as a decoded JSON value. -/
def scrollElem : Json :=
  Json.obj [("tool", Json.str "scroll"), ("parameters", Json.obj [("direction", Json.str "down")])]

/-- A payload whose single plan element is well-formed. -/
def wfActionPayload : String :=
  "\x7b\"intermediate_goal\": \"g\", \"plan\": [\x7b\"tool\": \"scroll\", \"parameters\": \x7b\"direction\": \"down\"\x7d\x7d]\x7d"

/-- A payload with one well-formed plan element followed by one
malformed element (missing `parameters`). -/
def mixedPayload : String :=
  "\x7b\"intermediate_goal\": \"g\", \"plan\": [\x7b\"tool\": \"scroll\", \"parameters\": \x7b\x7d\x7d, \x7b\"tool\": \"click\"\x7d]\x7d"

/-! ## Helper lemmas on literal search -/

theorem dropLit_self_append (pat s : List Char) : dropLit pat (pat ++ s) = some s := by
  induction pat with
  | nil => rfl
  | cons p ps ih => simp [dropLit, ih]

theorem dropLit_short (pat : List Char) :
    ∀ s : List Char, s.length < pat.length → dropLit pat s = none := by
  induction pat with
  | nil => intro s h; simp at h
  | cons p ps ih =>
    intro s h
    cases s with
    | nil => rfl
    | cons c cs =>
      simp only [dropLit]
      split
      · exact ih cs (by simpa using h)
      · rfl

theorem splitLast_short (pat : List Char) :
    ∀ s : List Char, s.length < pat.length → splitLast pat s = none := by
  intro s
  induction s with
  | nil =>
    intro h
    cases pat with
    | nil => simp at h
    | cons p ps => rfl
  | cons c cs ih =>
    intro h
    simp only [splitLast]
    rw [ih (by simp at h ⊢; omega), dropLit_short pat (c :: cs) h]

theorem splitLast_append_self (p : Char) (ps xs : List Char) :
    splitLast (p :: ps) (xs ++ (p :: ps)) = some (xs, []) := by
  induction xs with
  | nil =>
    have hd : dropLit (p :: ps) (p :: ps) = some [] := by
      have := dropLit_self_append (p :: ps) []
      simpa using this
    show splitLast (p :: ps) (p :: ps) = some ([], [])
    simp only [splitLast]
    rw [splitLast_short (p :: ps) ps (by simp), hd]
  | cons x xs ih =>
    show splitLast (p :: ps) (x :: (xs ++ (p :: ps))) = some (x :: xs, [])
    simp only [splitLast]
    rw [ih]

theorem splitFirst_self_append (p : Char) (ps s : List Char) :
    splitFirst (p :: ps) ((p :: ps) ++ s) = some ([], s) := by
  show splitFirst (p :: ps) (p :: (ps ++ s)) = some ([], s)
  simp only [splitFirst]
  rw [show p :: (ps ++ s) = (p :: ps) ++ s from rfl, dropLit_self_append]

theorem string_data_append (a b : String) : (a ++ b).data = a.data ++ b.data := rfl

theorem string_mk_data (s : String) : String.mk s.data = s := rfl

theorem splitFirst_none_of_not_occurs (pat s : List Char) (h : occursLit pat s = false) :
    splitFirst pat s = none := by
  unfold occursLit at h
  cases hs : splitFirst pat s with
  | none => rfl
  | some r => rw [hs] at h; simp at h

/-- The greedy capture: wrapping any payload in a single `json` fence
extracts exactly the payload back, whatever the payload contains. -/
theorem extractPayload_wrap (P : String) :
    extractPayload ("```json\n" ++ P ++ "\n```") = P := by
  have h1 : splitFirst "```json\n".data ("```json\n" ++ P ++ "\n```").data
      = some ([], P.data ++ "\n```".data) := by
    have hdata : ("```json\n" ++ P ++ "\n```").data
        = "```json\n".data ++ (P.data ++ "\n```".data) := by
      rw [string_data_append, string_data_append, List.append_assoc]
    rw [hdata]
    exact splitFirst_self_append '`' "``json\n".data (P.data ++ "\n```".data)
  have h2 : splitLast "\n```".data (P.data ++ "\n```".data) = some (P.data, []) :=
    splitLast_append_self '\n' "```".data P.data
  unfold extractPayload
  rw [h1]
  simp [h2, string_mk_data]

theorem extractPayload_of_no_fence (P : String)
    (h : occursLit "```json\n".data P.data = false) :
    extractPayload P = P := by
  unfold extractPayload
  rw [splitFirst_none_of_not_occurs _ _ h]
  rfl

theorem string_ext (a b : String) (h : a.data = b.data) : a = b := by
  cases a
  cases b
  cases h
  rfl

/-! ## Claim theorems -/

/-- **C9** (amended). Wrapping a payload that itself contains no
` ```json ` fence in a fenced block gives the same parse result as the
unwrapped payload (identical plan, goal, and success/failure status; on
failure only the echoed raw text differs). When the raw text contains
two fenced blocks, the greedy capture spans from the first opening
fence to the **last** closing fence — not the first block's contents. -/
theorem fence_stripping_greedy :
    (∀ P : String, occursLit "```json\n".data P.data = false →
      (plan_validation_node ("```json\n" ++ P ++ "\n```")).concrete_plan
          = (plan_validation_node P).concrete_plan
        ∧ (plan_validation_node ("```json\n" ++ P ++ "\n```")).intermediate_goal
          = (plan_validation_node P).intermediate_goal
        ∧ ((plan_validation_node ("```json\n" ++ P ++ "\n```")).error_message).isSome
          = ((plan_validation_node P).error_message).isSome)
    ∧ (∀ A mid B : String,
      extractPayload ("```json\n" ++ A ++ "\n```" ++ mid ++ "```json\n" ++ B ++ "\n```")
        = A ++ "\n```" ++ mid ++ "```json\n" ++ B) := by
  constructor
  · intro P h
    unfold plan_validation_node
    rw [extractPayload_wrap, extractPayload_of_no_fence P h]
    cases planValidationCore P with
    | ok pr => exact ⟨rfl, rfl, rfl⟩
    | error e => exact ⟨rfl, rfl, rfl⟩
  · intro A mid B
    have hx : ("```json\n" ++ A ++ "\n```" ++ mid ++ "```json\n" ++ B ++ "\n```")
        = "```json\n" ++ (A ++ "\n```" ++ mid ++ "```json\n" ++ B) ++ "\n```" := by
      apply string_ext
      simp only [string_data_append, List.append_assoc]
    rw [hx]
    exact extractPayload_wrap _

/-- Witness for C9: the wrap-equivalence applied to a concrete
fence-free payload. -/
theorem fence_stripping_greedy_witness :
    (plan_validation_node ("```json\n" ++ wfPayload ++ "\n```")).concrete_plan
        = (plan_validation_node wfPayload).concrete_plan
      ∧ (plan_validation_node ("```json\n" ++ wfPayload ++ "\n```")).intermediate_goal
        = (plan_validation_node wfPayload).intermediate_goal
      ∧ ((plan_validation_node ("```json\n" ++ wfPayload ++ "\n```")).error_message).isSome
        = ((plan_validation_node wfPayload).error_message).isSome :=
  fence_stripping_greedy.1 wfPayload rfl

/-- Counterexample for C9 as stated: in a raw text with two fenced
blocks whose first block is a valid plan payload, the extracted payload
is not the first block's contents, and the parse fails even though
parsing the first block's contents succeeds. -/
theorem first_block_not_used :
    extractPayload twoBlockRaw ≠ wfPayload
      ∧ (plan_validation_node wfPayload).error_message = none
      ∧ ((plan_validation_node twoBlockRaw).error_message).isSome = true := by
  refine ⟨by decide, rfl, rfl⟩

/-- **C7**. The `vision_node` update unconditionally resets
`error_message` to `None` before `reasoning_node` reads it, so the
reasoning call's `previous_error` is always `None` after a perception
step — the failure message from the previous cycle never reaches the
model. (This confirms the divergence: the claim's propagation does not
happen.) -/
theorem vision_node_clears_previous_error (analysis : String) (st : LoopState) :
    reasoning_previous_error (vision_node_update analysis st) = none := rfl

/-- **C8**. `stop()` is idempotent and leaves every backend handle
cleared: stopping twice equals stopping once, and after a stop the
session is fully stopped (no playwright, browser or page handle, hence
not running). The embedded `stop` is a total function — no code path
raises; the second call in particular skips both teardown branches
because all handles are already `None`. -/
theorem browser_stop_idempotent (bc : BrowserController) :
    BrowserController.stop (BrowserController.stop bc) = BrowserController.stop bc
      ∧ (BrowserController.stop bc).playwright = false
      ∧ (BrowserController.stop bc).browser = false
      ∧ (BrowserController.stop bc).page = false
      ∧ (BrowserController.stop bc).isRunning = false :=
  ⟨rfl, rfl, rfl, rfl, rfl⟩

/-- **C10**. `parse_action_string` is total and safe: every input
yields either one of the four recognized action types or exactly the
error 4-tuple embedding the raw model output. -/
theorem parse_action_string_error_fallback (s : String) :
    parse_action_string s = parseErrorResult s
      ∨ (parse_action_string s).action_type
          ∈ (["click", "type", "scroll", "finish"] : List String) := by
  unfold parse_action_string
  dsimp only
  split_ifs <;> (try split) <;> simp [parseErrorResult]

/-- **C3** (amended). When plan parsing fails, `should_continue` routes
straight back to the reasoning node (Planning), never to the dispatcher;
the dispatcher's empty-plan guard — reachable only as a safeguard —
returns `Failed` with the no-valid-plan message without attempting any
backend call. -/
theorem parse_failure_routes_to_reasoning :
    (∀ (msg : String) (plan : List ActionDetail), msg ≠ "" →
      should_continue (some msg) plan = Route.reasoning_node)
    ∧ (∀ (env : Env) (bc : BrowserController) (ig : Option Json),
      (execution_node env bc ig []).outcome = ExecOutcome.failed noPlanMsg
        ∧ (execution_node env bc ig []).calls = []
        ∧ (execution_node env bc ig []).bc = bc) := by
  constructor
  · intro msg plan h
    simp [should_continue, pythonTruthy, h]
  · intro env bc ig
    exact ⟨rfl, rfl, rfl⟩

/-- Witness for C3: a concrete parse-failure message routes back to
reasoning, and the dispatcher fails fast on the empty plan. -/
theorem parse_failure_routes_to_reasoning_witness :
    should_continue (some "Failed to parse or validate plan object") []
        = Route.reasoning_node
      ∧ (execution_node envOk bcRunning none []).outcome = ExecOutcome.failed noPlanMsg :=
  ⟨parse_failure_routes_to_reasoning.1 "Failed to parse or validate plan object" []
      (by decide),
    (parse_failure_routes_to_reasoning.2 envOk bcRunning none).1⟩

/-- Counterexample for C3 as stated: after a failed parse (here of the
raw text `"not json"`), the controller routes to the reasoning node,
not to the execution node — the claimed Planning → Executing advance
with an empty plan does not happen. -/
theorem parse_failure_not_to_execution :
    should_continue (plan_validation_node "not json").error_message
        (plan_validation_node "not json").concrete_plan = Route.reasoning_node
      ∧ Route.reasoning_node ≠ Route.execution_node :=
  ⟨rfl, by decide⟩

/-! ## Dispatcher lemmas -/

/-- No branch of the dispatch loop writes to the browser session. -/
theorem execGo_bc_unchanged (env : Env) (bc : BrowserController) (igs : String)
    (plan : List ActionDetail) :
    ∀ results : List String, (execGo env bc igs plan results).bc = bc := by
  induction plan with
  | nil => intro results; rfl
  | cons a rest ih =>
    intro results
    simp only [execGo]
    cases h : execStep env bc a with
    | success calls => simp [ih]
    | failure reason calls => rfl
    | finishAttempt j => rfl

/-- `execution_node` never starts, stops or restarts the automation
session: the browser state after a run is the state before it. -/
theorem execution_node_bc_unchanged (env : Env) (bc : BrowserController)
    (ig : Option Json) (plan : List ActionDetail) :
    (execution_node env bc ig plan).bc = bc := by
  cases plan with
  | nil => rfl
  | cons a rest =>
    simp only [execution_node]
    exact execGo_bc_unchanged env bc (igRender ig) (a :: rest) []

/-- Fail-fast shape of the loop: after a successful prefix, a failing
action aborts with the wrapped error, touching only the prefix's
backend calls plus its own. -/
theorem execGo_prefix_failure (env : Env) (bc : BrowserController) (igs : String)
    (a : ActionDetail) (reason : String) (calls : List BackendCall)
    (ha : execStep env bc a = StepOutcome.failure reason calls) :
    ∀ (pre rest : List ActionDetail) (results : List String),
      (∀ b ∈ pre, ∃ cs, execStep env bc b = StepOutcome.success cs) →
      execGo env bc igs (pre ++ a :: rest) results
        = ⟨ExecOutcome.failed (execErrMsg a.tool reason), bc,
            ["ERROR: " ++ execErrMsg a.tool reason],
            (pre.map (stepCalls env bc)).flatten ++ calls⟩ := by
  intro pre
  induction pre with
  | nil =>
    intro rest results _
    simp only [List.nil_append, execGo, ha, List.map_nil, List.flatten_nil, List.nil_append]
  | cons x pre ih =>
    intro rest results hall
    obtain ⟨cs, hx⟩ := hall x (List.mem_cons_self x pre)
    have hrec := ih rest
      (results ++ ["Action \x27" ++ x.tool ++ "\x27 executed successfully."])
      (fun b hb => hall b (List.mem_cons_of_mem x hb))
    simp only [List.cons_append, execGo, hx, List.append_eq, hrec, stepCalls,
      List.map_cons, List.flatten_cons, List.append_assoc]

/-- **C4** (amended). If every action before position *k* succeeds and
the action at *k* raises a backend error or names an unknown tool, the
dispatcher executes exactly actions `0..k-1` plus the failing attempt
(nothing after *k*), appends the error to history, and returns
`Failed` — but it leaves the Automation Session exactly as it was: it
never stops or clears it, so a running session is still running
afterward. -/
theorem dispatcher_failfast_session_untouched (env : Env) (bc : BrowserController)
    (ig : Option Json) (a : ActionDetail) (reason : String) (calls : List BackendCall)
    (pre rest : List ActionDetail)
    (ha : execStep env bc a = StepOutcome.failure reason calls)
    (hpre : ∀ b ∈ pre, ∃ cs, execStep env bc b = StepOutcome.success cs) :
    (execution_node env bc ig (pre ++ a :: rest)).outcome
        = ExecOutcome.failed (execErrMsg a.tool reason)
      ∧ (execution_node env bc ig (pre ++ a :: rest)).calls
        = (pre.map (stepCalls env bc)).flatten ++ calls
      ∧ (execution_node env bc ig (pre ++ a :: rest)).hist
        = ["Executing plan for intermediate goal: " ++ igRender ig,
            "ERROR: " ++ execErrMsg a.tool reason]
      ∧ (execution_node env bc ig (pre ++ a :: rest)).bc = bc := by
  have hgo := execGo_prefix_failure env bc (igRender ig) a reason calls ha pre rest [] hpre
  cases hp : pre with
  | nil =>
    subst hp
    simp only [List.nil_append] at hgo ⊢
    simp [execution_node, hgo]
  | cons x xs =>
    subst hp
    simp only [List.cons_append] at hgo ⊢
    simp [execution_node, hgo]

/-- Witness for C4: a successful `scroll`, then an unknown tool; the
dispatcher performs only the scroll, fails with the unknown-tool error,
and the running session is left running (not stopped). -/
theorem dispatcher_failfast_witness :
    (execution_node envOk bcRunning (some (Json.str "g"))
        ([scrollAD] ++ bogusAD :: [scrollAD])).outcome
        = ExecOutcome.failed (execErrMsg "bogus_tool" "Unknown tool: \x27bogus_tool\x27")
      ∧ (execution_node envOk bcRunning (some (Json.str "g"))
          ([scrollAD] ++ bogusAD :: [scrollAD])).calls
        = ([scrollAD].map (stepCalls envOk bcRunning)).flatten ++ []
      ∧ (execution_node envOk bcRunning (some (Json.str "g"))
          ([scrollAD] ++ bogusAD :: [scrollAD])).hist
        = ["Executing plan for intermediate goal: g",
            "ERROR: " ++ execErrMsg "bogus_tool" "Unknown tool: \x27bogus_tool\x27"]
      ∧ (execution_node envOk bcRunning (some (Json.str "g"))
          ([scrollAD] ++ bogusAD :: [scrollAD])).bc = bcRunning :=
  dispatcher_failfast_session_untouched envOk bcRunning (some (Json.str "g"))
    bogusAD "Unknown tool: \x27bogus_tool\x27" [] [scrollAD] [scrollAD] rfl
    (by
      intro b hb
      simp only [List.mem_singleton] at hb
      subst hb
      exact ⟨[BackendCall.osScroll (Json.str "down")], rfl⟩)

/-- Counterexample for C4 as stated: an unknown tool at position 0 with
a running session — the dispatcher returns `Failed` but the Automation
Session is still running afterward, not `Stopped`. -/
theorem failed_action_leaves_session_running :
    (execution_node envOk bcRunning none [unknownAD]).outcome
        = ExecOutcome.failed (execErrMsg "does_not_exist" "Unknown tool: \x27does_not_exist\x27")
      ∧ (execution_node envOk bcRunning none [unknownAD]).bc.isRunning = true :=
  ⟨rfl, rfl⟩

/-- **C5** (amended). The dispatcher never starts (nor stops or
restarts) the Automation Session: (i) the browser state after any run
equals the state before it, so a running session is reused as-is and a
stopped one is never revived; (ii) `navigate`'s lazy-start calls the
nonexistent method `launch` and always fails with an AttributeError
before touching the backend; (iii) `click` with a selector and no
running session fails with the not-started RuntimeError without any
backend call — it does not trigger a start; (iv) with a running
session, `click` dispatches to the backend, reusing that session. -/
theorem dispatcher_never_starts_session :
    (∀ (env : Env) (bc : BrowserController) (ig : Option Json) (plan : List ActionDetail),
      (execution_node env bc ig plan).bc = bc)
    ∧ (∀ (env : Env) (bc : BrowserController) (ps : List (String × Json)),
      execStep env bc ⟨"navigate", ps⟩ = StepOutcome.failure attrErrLaunch [])
    ∧ (∀ (env : Env) (bc : BrowserController) (sel : Json),
      bc.isRunning = false →
      execStep env bc ⟨"click", [("selector", sel)]⟩
        = StepOutcome.failure runtimeNotStarted [])
    ∧ (∀ (env : Env) (bc : BrowserController) (sel : Json),
      bc.isRunning = true → env (BackendCall.pageClick sel) = none →
      execStep env bc ⟨"click", [("selector", sel)]⟩
        = StepOutcome.success [BackendCall.pageClick sel]) := by
  refine ⟨execution_node_bc_unchanged, ?_, ?_, ?_⟩
  · intro env bc ps
    rfl
  · intro env bc sel h
    simp [execStep, hasKey, keysAllowed, objLookup, h]
  · intro env bc sel h1 h2
    simp [execStep, hasKey, keysAllowed, getKey, objLookup, h1, h2]

/-- Witness for C5: the session invariant and the three dispatch facts
at concrete inputs (unstarted and running sessions). -/
theorem dispatcher_never_starts_session_witness :
    (execution_node envOk BrowserController.unstarted none [clickSelAD]).bc
        = BrowserController.unstarted
      ∧ execStep envOk BrowserController.unstarted ⟨"navigate", [("url", Json.str "https://x")]⟩
        = StepOutcome.failure attrErrLaunch []
      ∧ execStep envOk BrowserController.unstarted ⟨"click", [("selector", Json.str "#btn")]⟩
        = StepOutcome.failure runtimeNotStarted []
      ∧ execStep envOk bcRunning ⟨"click", [("selector", Json.str "#btn")]⟩
        = StepOutcome.success [BackendCall.pageClick (Json.str "#btn")] :=
  ⟨dispatcher_never_starts_session.1 envOk BrowserController.unstarted none [clickSelAD],
    dispatcher_never_starts_session.2.1 envOk BrowserController.unstarted
      [("url", Json.str "https://x")],
    dispatcher_never_starts_session.2.2.1 envOk BrowserController.unstarted
      (Json.str "#btn") rfl,
    dispatcher_never_starts_session.2.2.2 envOk bcRunning (Json.str "#btn") rfl rfl⟩

/-- Counterexample for C5 as stated: with no session running, a `click`
(a backend-touching tool) does not trigger a start — it fails with the
not-started error, no backend call, session still unstarted; and
`navigate`'s start attempt fails with the AttributeError, leaving the
session not running. -/
theorem no_lazy_start_counterexample :
    (execution_node envOk BrowserController.unstarted none [clickSelAD]).outcome
        = ExecOutcome.failed (execErrMsg "click" runtimeNotStarted)
      ∧ (execution_node envOk BrowserController.unstarted none [clickSelAD]).calls = []
      ∧ (execution_node envOk BrowserController.unstarted none [clickSelAD]).bc
        = BrowserController.unstarted
      ∧ (execution_node envOk BrowserController.unstarted none [navigateAD]).outcome
        = ExecOutcome.failed (execErrMsg "navigate" attrErrLaunch)
      ∧ (execution_node envOk BrowserController.unstarted none [navigateAD]).bc.isRunning
        = false :=
  ⟨rfl, rfl, rfl, rfl, rfl⟩

/-- **C1** (divergence evaluation). On a plan containing the terminal
tool: (i) `should_continue` routes it straight to `END`, so the
compiled graph never invokes the dispatcher on it — actions `0..k` are
not executed and no terminal result is recorded; (ii) invoked directly
on `[finish_task]` with a running session, the dispatcher does not
return `Finished`: the `AgentResponse(status=..., output=...)`
construction raises (`schemas.AgentResponse` requires
`thought`/`actions`), so the run ends `Failed` — and the session is
left running, never stopped. -/
theorem finish_task_dispatch_eval :
    should_continue none [navigateAD, finishAD] = Route.END
      ∧ (execution_node envOk bcRunning (some (Json.str "g")) [finishAD]).outcome
        = ExecOutcome.failed (execErrMsg "finish_task"
            "ValidationError: AgentResponse fields \x27thought\x27 and \x27actions\x27 are required")
      ∧ (execution_node envOk bcRunning (some (Json.str "g")) [finishAD]).hist
        = ["Executing plan for intermediate goal: g",
            "Task finished with result: done",
            "ERROR: " ++ execErrMsg "finish_task"
              "ValidationError: AgentResponse fields \x27thought\x27 and \x27actions\x27 are required"]
      ∧ (execution_node envOk bcRunning (some (Json.str "g")) [finishAD]).bc = bcRunning
      ∧ bcRunning.isRunning = true :=
  ⟨rfl, rfl, rfl, rfl, rfl⟩

/-! ## Validation-loop lemmas -/

theorem wellFormed_mk_ok (e : Json) (h : wellFormedAction e = true) :
    mkActionDetail e = Except.ok (adForce e) := by
  cases hm : mkActionDetail e with
  | ok a => unfold adForce; rw [hm]
  | error m => unfold wellFormedAction at h; rw [hm] at h; simp at h

theorem convertActions_all_ok (elems : List Json) :
    elems.all wellFormedAction = true →
    convertActions elems = Except.ok (elems.map adForce) := by
  induction elems with
  | nil => intro _; rfl
  | cons e rest ih =>
    intro h
    simp only [List.all_cons, Bool.and_eq_true] at h
    have he := wellFormed_mk_ok e h.1
    simp only [convertActions, he, ih h.2, List.map_cons]

theorem convertActions_has_error (elems : List Json) :
    elems.all wellFormedAction = false →
    ∃ m, convertActions elems = Except.error m := by
  induction elems with
  | nil => intro h; simp at h
  | cons e rest ih =>
    intro h
    cases hm : mkActionDetail e with
    | error m => exact ⟨m, by simp [convertActions, hm]⟩
    | ok a =>
      have he : wellFormedAction e = true := by unfold wellFormedAction; rw [hm]
      have hr : rest.all wellFormedAction = false := by
        simp only [List.all_cons, he, Bool.true_and] at h
        exact h
      obtain ⟨m, hm2⟩ := ih hr
      exact ⟨m, by simp [convertActions, hm, hm2]⟩

/-- **C2** (amended). For a decodable payload with both keys and a list
of plan elements: if every element is well-formed the parse succeeds
with exactly those elements, converted in their original order; but if
any element is malformed, the whole parse fails — the element is not
dropped, the plan comes back empty with an error recorded. -/
theorem plan_parser_allvalid_or_fail (raw : String) (fields : List (String × Json))
    (ig : Json) (elems : List Json)
    (hdec : jsonLoads (extractPayload raw) = some (Json.obj fields))
    (hig : objLookup fields "intermediate_goal" = some ig)
    (hplan : objLookup fields "plan" = some (Json.arr elems)) :
    (elems.all wellFormedAction = true →
      plan_validation_node raw = ⟨elems.map adForce, some ig, none⟩)
    ∧ (elems.all wellFormedAction = false →
      (plan_validation_node raw).concrete_plan = []
        ∧ ((plan_validation_node raw).error_message).isSome = true) := by
  constructor
  · intro hall
    have hconv := convertActions_all_ok elems hall
    simp [plan_validation_node, planValidationCore, hdec, hig, hplan, hconv]
  · intro hsome
    obtain ⟨m, hconv⟩ := convertActions_has_error elems hsome
    simp [plan_validation_node, planValidationCore, hdec, hig, hplan, hconv]

/-- Witness for C2: a concrete all-well-formed payload parses to
exactly its one action. -/
theorem plan_parser_allvalid_or_fail_witness :
    plan_validation_node wfActionPayload
      = ⟨[⟨"scroll", [("direction", Json.str "down")]⟩], some (Json.str "g"), none⟩ :=
  (plan_parser_allvalid_or_fail wfActionPayload
    [("intermediate_goal", Json.str "g"), ("plan", Json.arr [scrollElem])]
    (Json.str "g") [scrollElem] rfl rfl rfl).1 rfl

/-- Counterexample for C2 as stated: a payload with one well-formed and
one malformed element does not succeed with the well-formed element —
the whole parse fails with an empty plan and an error. -/
theorem plan_parser_mixed_payload_fails :
    (plan_validation_node mixedPayload).concrete_plan = []
      ∧ ((plan_validation_node mixedPayload).error_message).isSome = true
      ∧ wellFormedAction
          (Json.obj [("tool", Json.str "scroll"), ("parameters", Json.obj [])]) = true :=
  ⟨rfl, rfl, rfl⟩

/-- **C6** (amended). A decoded payload missing `intermediate_goal` or
missing `plan` makes validation fail with the two-keys error and an
empty plan; there are no `"N/A"`/empty defaults. -/
theorem missing_keys_fail_validation (raw : String) (fields : List (String × Json))
    (hdec : jsonLoads (extractPayload raw) = some (Json.obj fields))
    (hmiss : objLookup fields "intermediate_goal" = none
      ∨ objLookup fields "plan" = none) :
    plan_validation_node raw
      = ⟨[], none, some ("Failed to parse or validate plan object: " ++ errKeys
          ++ ". Raw response was: " ++ raw)⟩ := by
  cases hmiss with
  | inl h => simp [plan_validation_node, planValidationCore, hdec, h]
  | inr h =>
    cases hig : objLookup fields "intermediate_goal" with
    | none => simp [plan_validation_node, planValidationCore, hdec, hig]
    | some ig => simp [plan_validation_node, planValidationCore, hdec, hig, h]

/-- Witness for C6: the concrete payload lacking only
`intermediate_goal` fails with the two-keys error. -/
theorem missing_keys_fail_validation_witness :
    plan_validation_node "\x7b\"plan\": []\x7d"
      = ⟨[], none, some ("Failed to parse or validate plan object: " ++ errKeys
          ++ ". Raw response was: " ++ "\x7b\"plan\": []\x7d")⟩ :=
  missing_keys_fail_validation "\x7b\"plan\": []\x7d" [("plan", Json.arr [])] rfl
    (Or.inl rfl)

/-- Counterexample for C6 as stated: a payload missing only
`intermediate_goal` (claimed to default to `"N/A"` and succeed) in fact
fails: an error is recorded and no goal is stored. -/
theorem missing_intermediate_goal_fails :
    ((plan_validation_node "\x7b\"plan\": []\x7d").error_message).isSome = true
      ∧ (plan_validation_node "\x7b\"plan\": []\x7d").intermediate_goal = none :=
  ⟨rfl, rfl⟩

/-! ## Sanity checks on the embedding -/

example : jsonLoads "\x7b\"a\": [1, true, \"x\"]\x7d"
    = some (Json.obj [("a", Json.arr [Json.num "1", Json.bool true, Json.str "x"])]) := rfl

example : jsonLoads "not json" = none := rfl

example :
    (plan_validation_node wfActionPayload).error_message = none := rfl

example :
    extractPayload "```json\n\x7b\"plan\": []\x7d\n```" = "\x7b\"plan\": []\x7d" := rfl

example :
    parse_action_string "CLICK(10, 20, \"press\")"
      = ⟨"click", some (10, 20), none, "press"⟩ := rfl

example :
    parse_action_string "type(\"hello\", \"fill box\")"
      = ⟨"type", none, some "hello", "fill box"⟩ := rfl

example :
    parse_action_string "nonsense"
      = ⟨"error", none, none, "Could not parse model output: nonsense"⟩ := rfl

end AutoCogni
